import Mathlib

/-!
Shallow embedding of the SkillSwap backend (`src/main.py`, schemas in
`src/schemas.py`).

The document store keeps five collections; each record is addressed by a
store-generated identifier, modelled as a `Nat` drawn from a per-store
counter `nextId`.  A collection is a list of `(id, document)` pairs in
insertion ("natural") order; `find_one` is `List.find?` (first match in
natural order), `find` with a filter is `List.filter`, `update_one` updates
the first matching record.  External identifier strings are decoded by
`oid`, which rejects strings that do not parse (HTTP 400 in the source).

Endpoints are state-passing functions `DB → ... → Except Err α × DB`; the
returned state reflects every store mutation performed before an exception
aborted the request, matching the non-transactional Python code.
-/

/-- HTTP-style errors raised by the endpoints: `invalidArgument` is
`HTTPException(400, ...)`, `notFound` is `HTTPException(404, ...)`. -/
inductive Err where
  | invalidArgument : String → Err
  | notFound : String → Err
deriving Repr, DecidableEq

/-- `userprofile` document (schemas.py `Userprofile`).  The stored document
of a freshly created user has no `skillcoins` key; every read in main.py
uses `.get("skillcoins", 0)` and `$inc` treats a missing key as `0`, so the
typed embedding materialises the default `0`. -/
structure Userprofile where
  name : String
  email : String
  bio : Option String := none
  avatar_url : Option String := none
  teach_skills : List String := []
  learn_skills : List String := []
  location : Option String := none
  availability : Option String := none
  skillcoins : Int := 0
deriving Repr, DecidableEq

/-- `swipe` document (schemas.py `Swipe`). -/
structure SwipeDoc where
  user_id : String
  target_id : String
  action : String
deriving Repr, DecidableEq

/-- `match` document (schemas.py `Match`). -/
structure MatchDoc where
  user_a : String
  user_b : String
  status : String
deriving Repr, DecidableEq

/-- `session` document (schemas.py `Session`). -/
structure SessionDoc where
  match_id : String
  host_id : String
  guest_id : String
  topic : Option String := none
  scheduled_time : Option String := none
  mode : String := "chat"
  status : String := "scheduled"
deriving Repr, DecidableEq

/-- `rewardtransaction` document (schemas.py `Rewardtransaction`). -/
structure RewardDoc where
  user_id : String
  amount : Int
  reason : String
deriving Repr, DecidableEq

/-- The document store: the five collections of main.py plus the fresh-id
counter.  `matches` is the `match` collection (renamed: `match` is a Lean
keyword). -/
structure DB where
  userprofile : List (Nat × Userprofile) := []
  swipe : List (Nat × SwipeDoc) := []
  matchColl : List (Nat × MatchDoc) := []
  session : List (Nat × SessionDoc) := []
  rewardtransaction : List (Nat × RewardDoc) := []
  nextId : Nat := 0
deriving Repr, DecidableEq

/-- Numeric value of a digit string (the identifier codec's decode step). -/
def digitsVal (l : List Char) : Nat :=
  l.foldl (fun n c => n * 10 + (c.toNat - 48)) 0

/-- The `ObjectId` constructor's parse, embedded over `Nat` identifiers: a
well-formed identifier string is a non-empty string of decimal digits (the
`toString` image of a `Nat`); anything else is malformed and rejected. -/
def parseId (s : String) : Option Nat :=
  if s.data ≠ [] ∧ s.data.all (fun c => c.isDigit) then some (digitsVal s.data) else none

/-- main.py `oid` (lines 22-26): decode an external identifier string,
raising HTTP 400 on a malformed string. -/
def oid (id_str : String) : Except Err Nat :=
  match parseId id_str with
  | some n => .ok n
  | none => .error (.invalidArgument "Invalid id")

/-- Modelled from the spec: `create_document` of the repository's `database`
module (not under src/) on the `userprofile` collection — the Document
Store Adapter's insert-and-return-id operation: append the document under a
fresh store-generated identifier and return that identifier. -/
def insertUser (st : DB) (u : Userprofile) : Nat × DB :=
  (st.nextId, { st with userprofile := st.userprofile ++ [(st.nextId, u)], nextId := st.nextId + 1 })

/-- Modelled from the spec: `create_document` of the repository's `database`
module (not under src/) on the `swipe` collection (insert-and-return-id). -/
def insertSwipe (st : DB) (s : SwipeDoc) : Nat × DB :=
  (st.nextId, { st with swipe := st.swipe ++ [(st.nextId, s)], nextId := st.nextId + 1 })

/-- Modelled from the spec: `create_document` of the repository's `database`
module (not under src/) on the `match` collection (insert-and-return-id). -/
def insertMatch (st : DB) (m : MatchDoc) : Nat × DB :=
  (st.nextId, { st with matchColl := st.matchColl ++ [(st.nextId, m)], nextId := st.nextId + 1 })

/-- Modelled from the spec: `create_document` of the repository's `database`
module (not under src/) on the `session` collection (insert-and-return-id). -/
def insertSession (st : DB) (s : SessionDoc) : Nat × DB :=
  (st.nextId, { st with session := st.session ++ [(st.nextId, s)], nextId := st.nextId + 1 })

/-- The driver's `insert_one` on `rewardtransaction` (main.py line 210):
same insert-and-return-id store operation. -/
def insertReward (st : DB) (r : RewardDoc) : Nat × DB :=
  (st.nextId, { st with rewardtransaction := st.rewardtransaction ++ [(st.nextId, r)], nextId := st.nextId + 1 })

/-- The driver's `update_one`: update the first record whose identifier
matches, leave the rest unchanged (a no-op when nothing matches). -/
def updateFirst {α : Type} (l : List (Nat × α)) (i : Nat) (f : α → α) : List (Nat × α) :=
  match l with
  | [] => []
  | x :: xs => if x.1 == i then (x.1, f x.2) :: xs else x :: updateFirst xs i f

/-- Request model `UserCreate` (main.py lines 30-38); note it has no
`skillcoins` field. -/
structure UserCreate where
  name : String
  email : String
  bio : Option String := none
  avatar_url : Option String := none
  teach_skills : List String := []
  learn_skills : List String := []
  location : Option String := none
  availability : Option String := none
deriving Repr, DecidableEq

/-- Request model `SwipeAction` (main.py lines 40-43). -/
structure SwipePayload where
  user_id : String
  target_id : String
  action : String
deriving Repr, DecidableEq

/-- Request model `SessionCreate` (main.py lines 45-49). -/
structure SessionPayload where
  match_id : String
  topic : Option String := none
  scheduled_time : Option String := none
  mode : String := "chat"
deriving Repr, DecidableEq

/-- main.py `create_or_get_user` (lines 79-88).  `find_one` by email; if a
profile exists return it as-is, otherwise insert the payload (dumped
verbatim) and re-fetch the new record by its fresh identifier.  `none`
models the Python crash (`user["id"]` on `None`) that would occur if the
re-fetch missed, which a store with unique fresh identifiers never does. -/
def create_or_get_user (st : DB) (p : UserCreate) : Option (Nat × Userprofile) × DB :=
  match st.userprofile.find? (fun r => r.2.email == p.email) with
  | some ex => (some ex, st)
  | none =>
    let doc : Userprofile :=
      { name := p.name, email := p.email, bio := p.bio, avatar_url := p.avatar_url,
        teach_skills := p.teach_skills, learn_skills := p.learn_skills,
        location := p.location, availability := p.availability, skillcoins := 0 }
    let res := insertUser st doc
    match res.2.userprofile.find? (fun r => r.1 == res.1) with
    | some u => (some u, res.2)
    | none => (none, res.2)

/-- Python `str.lower`, embedded as the per-character lower-casing of the
string's characters. -/
def strLower (s : String) : String := ⟨s.data.map Char.toLower⟩

/-- The lower-cased skill set: `set(map(str.lower, skills))`. -/
def lowerSet (skills : List String) : Finset String :=
  (skills.map strLower).toFinset

/-- main.py `recommendations` scoring loop (lines 107-119): the per-candidate
score computed from the lower-cased skill sets of the requester `me` and the
candidate `c`. -/
def score (me c : Userprofile) : Nat :=
  let my_teach := lowerSet me.teach_skills
  let my_learn := lowerSet me.learn_skills
  let teach := lowerSet c.teach_skills
  let learn := lowerSet c.learn_skills
  (my_teach ∩ learn).card * 3
    + (teach ∩ my_learn).card * 3
    + ((my_teach ∪ my_learn) ∩ (teach ∪ learn)).card

/-- One entry of the recommendation response: the candidate's public fields
(with its identifier) annotated with the score. -/
structure Scored where
  id : Nat
  user : Userprofile
  score : Nat
deriving Repr, DecidableEq

/-- Python list slicing `l[:k]` for an `int` bound `k`: a non-negative `k`
keeps the first `k` elements; a negative `k` drops the last `|k|`. -/
def pySlice {α : Type} (l : List α) (k : Int) : List α :=
  if k < 0 then l.take ((l.length + k).toNat) else l.take k.toNat

/-- main.py `recommendations` (lines 98-127): resolve the requester (404 if
absent), score every other profile, keep scores `> 0`, stable-sort by
descending score (Python `sort(key=score, reverse=True)`), return the first
`limit` (Python slice). -/
def recommendations (st : DB) (user_id : String) (limit : Int) : Except Err (List Scored) × DB :=
  match oid user_id with
  | .error e => (.error e, st)
  | .ok uid =>
    match st.userprofile.find? (fun r => r.1 == uid) with
    | none => (.error (.notFound "User not found"), st)
    | some me =>
      let candidates := st.userprofile.filter (fun r => !(r.1 == uid))
      let scored := (candidates.map (fun c => Scored.mk c.1 c.2 (score me.2 c.2))).filter
        (fun e => decide (0 < e.score))
      let sorted := scored.mergeSort (fun a b => decide (b.score ≤ a.score))
      (.ok (pySlice sorted limit), st)

/-- Result of the swipe endpoint: `{"status": "recorded"}` or
`{"status": "matched", "match_id": ...}`. -/
inductive SwipeResult where
  | recorded
  | matched : String → SwipeResult
deriving Repr, DecidableEq

/-- main.py `swipe` (lines 130-163): reject an action that is neither
"like" nor "pass" (400), insert the swipe event, and for a "like" look for
the reverse-direction like; on a mutual like return the existing match for
the unordered pair if there is one, otherwise create it with status
"active". -/
def swipe (st : DB) (p : SwipePayload) : Except Err SwipeResult × DB :=
  if p.action ≠ "like" ∧ p.action ≠ "pass" then
    (.error (.invalidArgument "Invalid action"), st)
  else
    let ins := insertSwipe st ⟨p.user_id, p.target_id, p.action⟩
    let st1 := ins.2
    if p.action = "like" then
      match st1.swipe.find? (fun r =>
          r.2.user_id == p.target_id && r.2.target_id == p.user_id && r.2.action == "like") with
      | some _ =>
        match st1.matchColl.find? (fun r =>
            (r.2.user_a == p.user_id && r.2.user_b == p.target_id)
              || (r.2.user_a == p.target_id && r.2.user_b == p.user_id)) with
        | none =>
          let mk := insertMatch st1 ⟨p.user_id, p.target_id, "active"⟩
          (.ok (.matched (toString mk.1)), mk.2)
        | some ex => (.ok (.matched (toString ex.1)), st1)
      | none => (.ok .recorded, st1)
    else
      (.ok .recorded, st1)

/-- main.py `get_matches` enrichment loop (lines 171-180): for each active
match of the user, decode the other participant's identifier (an
`HTTPException(400)` from `oid` aborts the whole request) and attach that
profile when it resolves. -/
def enrichMatches (st : DB) (user_id : String) :
    List (Nat × MatchDoc) → Except Err (List (String × Option (Nat × Userprofile)))
  | [] => .ok []
  | m :: ms =>
    let other_id := if m.2.user_a == user_id then m.2.user_b else m.2.user_a
    match oid other_id with
    | .error e => .error e
    | .ok ov =>
      let other := st.userprofile.find? (fun r => r.1 == ov)
      match enrichMatches st user_id ms with
      | .error e => .error e
      | .ok rest => .ok ((toString m.1, other) :: rest)

/-- main.py `get_matches` (lines 165-181): all matches with the user on
either side and status "active", enriched with the other participant's
profile.  The `user_id` query parameter itself is never decoded by `oid`. -/
def get_matches (st : DB) (user_id : String) :
    Except Err (List (String × Option (Nat × Userprofile))) × DB :=
  let ms := st.matchColl.filter (fun r =>
    (r.2.user_a == user_id || r.2.user_b == user_id) && r.2.status == "active")
  (enrichMatches st user_id ms, st)

/-- main.py `create_session` (lines 184-198): resolve the match (404 if
absent), then insert a session snapshotting the match's `user_a`/`user_b`
as host/guest, storing topic/schedule/mode verbatim, status "scheduled". -/
def create_session (st : DB) (p : SessionPayload) : Except Err Nat × DB :=
  match oid p.match_id with
  | .error e => (.error e, st)
  | .ok mid =>
    match st.matchColl.find? (fun r => r.1 == mid) with
    | none => (.error (.notFound "Match not found"), st)
    | some m =>
      let res := insertSession st
        { match_id := p.match_id, host_id := m.2.user_a, guest_id := m.2.user_b,
          topic := p.topic, scheduled_time := p.scheduled_time, mode := p.mode,
          status := "scheduled" }
      (.ok res.1, res.2)

/-- main.py `complete_session` reward loop (lines 209-215): for each of the
two user-id strings, insert a ledger entry, then decode the id (an
`HTTPException(400)` aborts the request, keeping the mutations made so far)
and `$inc` that user's `skillcoins` by the reward. -/
def rewardLoop (session_id : String) (reward : Int) :
    List String → DB → Except Err (String × Int) × DB
  | [], st => (.ok ("completed", reward), st)
  | uid :: rest, st =>
    let ins := insertReward st ⟨uid, reward, "Completed session " ++ session_id⟩
    match oid uid with
    | .error e => (.error e, ins.2)
    | .ok u =>
      let up := updateFirst ins.2.userprofile u
        (fun pr => { pr with skillcoins := pr.skillcoins + reward })
      rewardLoop session_id reward rest { ins.2 with userprofile := up }

/-- main.py `complete_session` (lines 200-216): resolve the session (404 if
absent), set its status to "completed", then run the reward loop over host
and guest and return `{"status": "completed", "skillcoins_awarded": 10}`. -/
def complete_session (st : DB) (session_id : String) : Except Err (String × Int) × DB :=
  match oid session_id with
  | .error e => (.error e, st)
  | .ok sid =>
    match st.session.find? (fun r => r.1 == sid) with
    | none => (.error (.notFound "Session not found"), st)
    | some s =>
      let up := updateFirst st.session s.1 (fun d => { d with status := "completed" })
      rewardLoop session_id 10 [s.2.host_id, s.2.guest_id] { st with session := up }

/-- main.py `get_skillcoins` (lines 218-223): resolve the user (404 if
absent) and return the `skillcoins` value (missing key reads as 0, which the
typed embedding materialises). -/
def get_skillcoins (st : DB) (user_id : String) : Except Err Int × DB :=
  match oid user_id with
  | .error e => (.error e, st)
  | .ok uid =>
    match st.userprofile.find? (fun r => r.1 == uid) with
    | none => (.error (.notFound "User not found"), st)
    | some u => (.ok u.2.skillcoins, st)

/-- The match records for the unordered pair `{a, b}`, in natural order:
the same either-ordering filter as the existence check in `swipe`. -/
def pairMatches (st : DB) (a b : String) : List (Nat × MatchDoc) :=
  st.matchColl.filter (fun r =>
    (r.2.user_a == a && r.2.user_b == b) || (r.2.user_a == b && r.2.user_b == a))

/-! ## Helper lemmas about the store primitives -/

theorem find?_append_right {α : Type} {p : α → Bool} {l1 l2 : List α}
    (h : l1.find? p = none) : (l1 ++ l2).find? p = l2.find? p := by
  rw [List.find?_append, h, Option.none_or]

theorem find?_updateFirst_self {α : Type} {l : List (Nat × α)} {i : Nat} {a : α}
    (f : α → α) (h : l.find? (fun r => r.1 == i) = some (i, a)) :
    (updateFirst l i f).find? (fun r => r.1 == i) = some (i, f a) := by
  induction l with
  | nil => simp at h
  | cons x xs ih =>
    by_cases hx : x.1 = i
    · rw [List.find?_cons] at h
      simp only [hx, beq_self_eq_true] at h
      have hxa : x = (i, a) := by
        cases h' : h; rfl
      subst hxa
      simp [updateFirst, List.find?_cons]
    · have hb : (x.1 == i) = false := by simp [hx]
      rw [List.find?_cons] at h
      simp only [hb] at h
      simp only [updateFirst, hb, if_neg, Bool.false_eq_true, ite_false]
      rw [List.find?_cons]
      simp only [hb]
      exact ih h

theorem find?_updateFirst_ne {α : Type} {l : List (Nat × α)} {i j : Nat}
    (f : α → α) (hij : i ≠ j) :
    (updateFirst l j f).find? (fun r => r.1 == i) = l.find? (fun r => r.1 == i) := by
  induction l with
  | nil => simp [updateFirst]
  | cons x xs ih =>
    by_cases hx : x.1 = j
    · have hb : (x.1 == j) = true := by simp [hx]
      have hbi : (x.1 == i) = false := by simp [hx]; exact fun h => hij (h ▸ rfl)
      simp only [updateFirst, hb, ite_true]
      rw [List.find?_cons, List.find?_cons]
      simp only [hbi]
    · have hb : (x.1 == j) = false := by simp [hx]
      simp only [updateFirst, hb, Bool.false_eq_true, ite_false]
      rw [List.find?_cons, List.find?_cons]
      cases hbi : (x.1 == i) with
      | true => rfl
      | false => exact ih

/-- The empty store. -/
def emptyDB : DB := {}

/-! ## C5: swipe action validation versus swipe persistence -/

/-- C5 counterexample: a swipe whose action is neither "like" nor "pass"
fails with InvalidArgument *without* persisting any swipe event — on the
empty store the call leaves the store empty, refuting the claim that "after
any swipe call a swipe record with the given user_id, target_id and action
exists" (the validation at main.py lines 132-133 precedes the insert at
line 136). -/
theorem swipe_invalid_action_no_record_cex :
    swipe emptyDB ⟨"1", "2", "superlike"⟩
        = (.error (.invalidArgument "Invalid action"), emptyDB)
      ∧ (swipe emptyDB ⟨"1", "2", "superlike"⟩).2.swipe = [] := by
  exact ⟨rfl, rfl⟩

/-- C5 (amended): the swipe operation fails with InvalidArgument when the
action is neither "like" nor "pass", and on that failure nothing at all is
persisted (the state is returned unchanged — in particular no swipe event);
for a valid action the swipe event is always persisted first,
unconditionally, regardless of the outcome of the call. -/
theorem swipe_validation_and_persistence (st : DB) (p : SwipePayload) :
    (p.action ≠ "like" → p.action ≠ "pass" →
        swipe st p = (.error (.invalidArgument "Invalid action"), st))
      ∧ (p.action = "like" ∨ p.action = "pass" →
        (swipe st p).2.swipe
          = st.swipe ++ [(st.nextId, ⟨p.user_id, p.target_id, p.action⟩)]) := by
  constructor
  · intro h1 h2
    simp [swipe, h1, h2]
  · intro hv
    rcases hv with hv | hv
    · simp only [swipe, hv, insertSwipe, insertMatch]
      simp only [ne_eq, not_true_eq_false, false_and, ite_false, ite_true]
      cases hfs : (st.swipe ++ [(st.nextId, (⟨p.user_id, p.target_id, "like"⟩ : SwipeDoc))]).find?
          (fun r => r.2.user_id == p.target_id && r.2.target_id == p.user_id
            && r.2.action == "like") with
      | none => simp [hfs, hv]
      | some w =>
        cases hfm : st.matchColl.find? (fun r =>
            (r.2.user_a == p.user_id && r.2.user_b == p.target_id)
              || (r.2.user_a == p.target_id && r.2.user_b == p.user_id)) with
        | none => simp [hfs, hfm, hv]
        | some ex => simp [hfs, hfm, hv]
    · simp [swipe, hv, insertSwipe]

/-- C5 witness: at a concrete valid "like" swipe the persisted-first
conclusion evaluates on the empty store. -/
theorem swipe_validation_and_persistence_witness :
    (swipe emptyDB ⟨"1", "2", "like"⟩).2.swipe = emptyDB.swipe ++ [(emptyDB.nextId, ⟨"1", "2", "like"⟩)] :=
  (swipe_validation_and_persistence emptyDB ⟨"1", "2", "like"⟩).2 (Or.inl rfl)

/-! ## C7: a "pass" swipe only records the event -/

/-- C7: a swipe with action "pass" returns a "recorded" result and its only
effect is appending the swipe event: the match collection (and every other
collection) is exactly that of the input state, so no match is ever created
— even when the target previously liked the passer. -/
theorem swipe_pass_only_records (st : DB) (p : SwipePayload) (hp : p.action = "pass") :
    swipe st p = (.ok .recorded,
      { st with swipe := st.swipe ++ [(st.nextId, ⟨p.user_id, p.target_id, p.action⟩)],
                nextId := st.nextId + 1 }) := by
  simp [swipe, hp, insertSwipe]

/-- C7 witness: a concrete "pass" from user "1" to user "2" on a store in
which "2" already liked "1": the result is "recorded" and no match
appears. -/
theorem swipe_pass_only_records_witness :
    swipe { swipe := [(0, ⟨"2", "1", "like"⟩)], nextId := 1 } ⟨"1", "2", "pass"⟩
      = (.ok .recorded,
         { swipe := [(0, ⟨"2", "1", "like"⟩), (1, ⟨"1", "2", "pass"⟩)], nextId := 2 }) := by
  have h := swipe_pass_only_records { swipe := [(0, ⟨"2", "1", "like"⟩)], nextId := 1 }
    ⟨"1", "2", "pass"⟩ rfl
  simpa using h

/-! ## C10: a self-like matches immediately -/

/-- C10: a "like" whose target is the swiping user itself returns "matched"
from the single call and creates a match whose `user_a` and `user_b` are
both that user: the swipe event inserted at the start of the call satisfies
the reverse-direction mutual-like query itself (provided no match for the
pair already exists, in which case that one would be returned instead). -/
theorem self_like_immediate_match (st : DB) (u : String)
    (hm : pairMatches st u u = []) :
    swipe st ⟨u, u, "like"⟩ = (.ok (.matched (toString (st.nextId + 1))),
      { st with swipe := st.swipe ++ [(st.nextId, ⟨u, u, "like"⟩)],
                matchColl := st.matchColl ++ [(st.nextId + 1, ⟨u, u, "active"⟩)],
                nextId := st.nextId + 2 }) := by
  have hmz : st.matchColl.find? (fun r => r.2.user_a == u && r.2.user_b == u) = none := by
    rw [List.find?_eq_none]
    intro x hx
    have := List.filter_eq_nil_iff.mp hm x hx
    simpa [pairMatches] using this
  simp only [swipe, insertSwipe, insertMatch]
  simp only [ne_eq, not_true_eq_false, false_and, ite_false, ite_true]
  cases hfs : (st.swipe ++ [(st.nextId, (⟨u, u, "like"⟩ : SwipeDoc))]).find?
      (fun r => r.2.user_id == u && r.2.target_id == u && r.2.action == "like") with
  | none =>
    rw [List.find?_eq_none] at hfs
    have hmem : (st.nextId, (⟨u, u, "like"⟩ : SwipeDoc))
        ∈ st.swipe ++ [(st.nextId, (⟨u, u, "like"⟩ : SwipeDoc))] := by simp
    have := hfs _ hmem
    simp at this
  | some w =>
    simp [hfs, hmz, Nat.add_assoc]

/-- C10 witness: a concrete self-like on the empty store. -/
theorem self_like_immediate_match_witness :
    swipe emptyDB ⟨"7", "7", "like"⟩ = (.ok (.matched "1"),
      { swipe := [(0, ⟨"7", "7", "like"⟩)], matchColl := [(1, ⟨"7", "7", "active"⟩)],
        nextId := 2 }) := by
  have h := self_like_immediate_match emptyDB "7" rfl
  simpa [emptyDB] using h

/-! ## C9: which endpoints reject malformed identifier strings -/

/-- C9 counterexample: two of the id-accepting operations named by the
claim do not reject malformed identifier strings.  The matches listing with
the malformed user id "zzz" succeeds with an empty list instead of failing
with InvalidArgument, and a swipe whose user and target ids are the
malformed strings "!a" and "!b" succeeds with a "recorded" result and
persists the swipe event (a state change) — main.py never passes either
endpoint's id strings through `oid`. -/
theorem malformed_id_not_rejected_cex :
    parseId "zzz" = none
      ∧ parseId "!a" = none
      ∧ parseId "!b" = none
      ∧ get_matches emptyDB "zzz" = (.ok [], emptyDB)
      ∧ (swipe emptyDB ⟨"!a", "!b", "like"⟩).1 = .ok .recorded
      ∧ (swipe emptyDB ⟨"!a", "!b", "like"⟩).2.swipe = [(0, ⟨"!a", "!b", "like"⟩)] := by
  exact ⟨rfl, rfl, rfl, rfl, rfl, rfl⟩

/-- C9 (amended): the id-accepting operations that do decode their
identifier argument — recommendations, session creation, session
completion, and skillcoins balance — fail with InvalidArgument on a
malformed identifier string and leave the persisted state unchanged; the
swipe and matches-listing operations never decode their id strings, so a
malformed id there is not rejected (swipe still persists the swipe event,
and matches listing returns an ordinary result). -/
theorem malformed_id_rejected_on_oid_endpoints (st : DB) (s : String) (limit : Int)
    (pl : SessionPayload) (hs : parseId s = none) (hpl : parseId pl.match_id = none) :
    recommendations st s limit = (.error (.invalidArgument "Invalid id"), st)
      ∧ create_session st pl = (.error (.invalidArgument "Invalid id"), st)
      ∧ complete_session st s = (.error (.invalidArgument "Invalid id"), st)
      ∧ get_skillcoins st s = (.error (.invalidArgument "Invalid id"), st) := by
  refine ⟨?_, ?_, ?_, ?_⟩
  · simp [recommendations, oid, hs]
  · simp [create_session, oid, hpl]
  · simp [complete_session, oid, hs]
  · simp [get_skillcoins, oid, hs]

/-- C9 witness: the malformed string "zzz" at the empty store. -/
theorem malformed_id_rejected_on_oid_endpoints_witness :
    recommendations emptyDB "zzz" 20 = (.error (.invalidArgument "Invalid id"), emptyDB)
      ∧ create_session emptyDB ⟨"zzz", none, none, "chat"⟩
          = (.error (.invalidArgument "Invalid id"), emptyDB)
      ∧ complete_session emptyDB "zzz" = (.error (.invalidArgument "Invalid id"), emptyDB)
      ∧ get_skillcoins emptyDB "zzz" = (.error (.invalidArgument "Invalid id"), emptyDB) :=
  malformed_id_rejected_on_oid_endpoints emptyDB "zzz" 20 ⟨"zzz", none, none, "chat"⟩ rfl rfl

/-! ## C8: session creation -/

/-- C8: create-session fails with NotFound when the (well-formed) match id
resolves to no match record, and otherwise inserts a session bound to the
resolved match whose host and guest are snapshots of the match's `user_a`
and `user_b`, whose topic, scheduled_time and mode are stored exactly as
supplied (unvalidated), and whose initial status is "scheduled". -/
theorem create_session_notfound_or_snapshot (st : DB) (p : SessionPayload) :
    (∀ mid, parseId p.match_id = some mid →
        st.matchColl.find? (fun r => r.1 == mid) = none →
        create_session st p = (.error (.notFound "Match not found"), st))
      ∧ (∀ mid m, parseId p.match_id = some mid →
        st.matchColl.find? (fun r => r.1 == mid) = some m →
        create_session st p = (.ok st.nextId,
          { st with
            session := st.session ++ [(st.nextId,
              { match_id := p.match_id, host_id := m.2.user_a, guest_id := m.2.user_b,
                topic := p.topic, scheduled_time := p.scheduled_time, mode := p.mode,
                status := "scheduled" })],
            nextId := st.nextId + 1 })) := by
  constructor
  · intro mid hmid hnone
    simp [create_session, oid, hmid, hnone]
  · intro mid m hmid hsome
    simp [create_session, oid, hmid, hsome, insertSession]

/-- C8 witness: both branches at concrete stores — id "5" resolves to no
match on the empty store, and on a store holding match 5 the session is
created with the snapshotted pair. -/
theorem create_session_notfound_or_snapshot_witness :
    create_session emptyDB ⟨"5", none, none, "chat"⟩
        = (.error (.notFound "Match not found"), emptyDB)
      ∧ create_session { matchColl := [(5, ⟨"1", "2", "active"⟩)], nextId := 6 }
          ⟨"5", some "lesson", some "2026-01-01T10:00:00", "video"⟩
        = (.ok 6,
           { matchColl := [(5, ⟨"1", "2", "active"⟩)],
             session := [(6, { match_id := "5", host_id := "1", guest_id := "2",
                               topic := some "lesson",
                               scheduled_time := some "2026-01-01T10:00:00",
                               mode := "video", status := "scheduled" })],
             nextId := 7 }) := by
  constructor
  · exact (create_session_notfound_or_snapshot emptyDB ⟨"5", none, none, "chat"⟩).1 5 rfl rfl
  · have h := (create_session_notfound_or_snapshot
      { matchColl := [(5, ⟨"1", "2", "active"⟩)], nextId := 6 }
      ⟨"5", some "lesson", some "2026-01-01T10:00:00", "video"⟩).2 5
      (5, ⟨"1", "2", "active"⟩) rfl rfl
    simpa using h

/-! ## C6: create-or-get user is idempotent by email -/

/-- C6: creating a user twice with payloads sharing the same email returns
the same stored record (in particular the same identifier) both times, and
the second call leaves the store exactly as the first call left it — the
second payload's other fields are discarded, not merged.  The freshness
hypothesis is the store guarantee that generated identifiers are new. -/
theorem create_or_get_user_idempotent (st : DB) (p1 p2 : UserCreate)
    (hemail : p1.email = p2.email)
    (hfresh : ∀ r ∈ st.userprofile, r.1 < st.nextId) :
    (∃ idu, (create_or_get_user st p1).1 = some idu
      ∧ (create_or_get_user (create_or_get_user st p1).2 p2).1 = some idu)
      ∧ (create_or_get_user (create_or_get_user st p1).2 p2).2
          = (create_or_get_user st p1).2 := by
  cases hf : st.userprofile.find? (fun r => r.2.email == p1.email) with
  | some ex =>
    have hf2 : st.userprofile.find? (fun r => r.2.email == p2.email) = some ex := by
      rw [← hemail]; exact hf
    constructor
    · exact ⟨ex, by simp [create_or_get_user, hf, hf2]⟩
    · simp [create_or_get_user, hf, hf2]
  | none =>
    have hfid : (st.userprofile
        ++ [(st.nextId, (⟨p1.name, p1.email, p1.bio, p1.avatar_url, p1.teach_skills,
              p1.learn_skills, p1.location, p1.availability, 0⟩ : Userprofile))]).find?
          (fun r => r.1 == st.nextId)
        = some (st.nextId, ⟨p1.name, p1.email, p1.bio, p1.avatar_url, p1.teach_skills,
              p1.learn_skills, p1.location, p1.availability, 0⟩) := by
      rw [find?_append_right, List.find?_cons]
      · simp
      · rw [List.find?_eq_none]
        intro x hx
        have := hfresh x hx
        simp only [beq_iff_eq]
        omega
    have hfem : (st.userprofile
        ++ [(st.nextId, (⟨p1.name, p1.email, p1.bio, p1.avatar_url, p1.teach_skills,
              p1.learn_skills, p1.location, p1.availability, 0⟩ : Userprofile))]).find?
          (fun r => r.2.email == p2.email)
        = some (st.nextId, ⟨p1.name, p1.email, p1.bio, p1.avatar_url, p1.teach_skills,
              p1.learn_skills, p1.location, p1.availability, 0⟩) := by
      rw [find?_append_right, List.find?_cons]
      · simp [hemail]
      · rw [← hemail]; exact hf
    constructor
    · refine ⟨(st.nextId, ⟨p1.name, p1.email, p1.bio, p1.avatar_url, p1.teach_skills,
        p1.learn_skills, p1.location, p1.availability, 0⟩), ?_, ?_⟩
      · simp [create_or_get_user, hf, insertUser, hfid]
      · simp [create_or_get_user, hf, insertUser, hfid, hfem]
    · simp [create_or_get_user, hf, insertUser, hfid, hfem]

/-- C6 witness: two creations with the same email (and different other
fields) on the empty store. -/
theorem create_or_get_user_idempotent_witness :
    (∃ idu, (create_or_get_user emptyDB ⟨"A", "a@x", none, none, [], [], none, none⟩).1 = some idu
      ∧ (create_or_get_user
          (create_or_get_user emptyDB ⟨"A", "a@x", none, none, [], [], none, none⟩).2
          ⟨"A2", "a@x", some "new bio", none, ["Chess"], [], none, none⟩).1 = some idu)
      ∧ (create_or_get_user
          (create_or_get_user emptyDB ⟨"A", "a@x", none, none, [], [], none, none⟩).2
          ⟨"A2", "a@x", some "new bio", none, ["Chess"], [], none, none⟩).2
        = (create_or_get_user emptyDB ⟨"A", "a@x", none, none, [], [], none, none⟩).2 :=
  create_or_get_user_idempotent emptyDB
    ⟨"A", "a@x", none, none, [], [], none, none⟩
    ⟨"A2", "a@x", some "new bio", none, ["Chess"], [], none, none⟩
    rfl (by simp [emptyDB])

/-! ## Recommendations: example states and the shape of a successful call -/

/-- The spec's example user A: teaches Python, wants to learn guitar. -/
def userA : Userprofile := { name := "A", email := "a@x", teach_skills := ["Python"], learn_skills := ["Guitar"] }

/-- The spec's example user B: teaches guitar, wants to learn Python. -/
def userB : Userprofile := { name := "B", email := "b@x", teach_skills := ["Guitar"], learn_skills := ["Python"] }

/-- A third user who only scores through the teach/learn overlap with A. -/
def userC : Userprofile := { name := "C", email := "c@x", teach_skills := ["Python"], learn_skills := [] }

/-- Store holding exactly the spec's example users A (id 0) and B (id 1). -/
def dbAB : DB := { userprofile := [(0, userA), (1, userB)], nextId := 2 }

/-- Store holding A (id 0), B (id 1) and C (id 2): two candidates with a
positive score for A. -/
def db3 : DB := { userprofile := [(0, userA), (1, userB), (2, userC)], nextId := 3 }

/-- A successful recommendations call decomposes into: resolved requester,
score-filtered candidate list, stable descending sort, Python slice. -/
theorem recommendations_ok_shape {st : DB} {user_id : String} {limit : Int} {out : List Scored}
    (h : (recommendations st user_id limit).1 = .ok out) :
    ∃ uid me, parseId user_id = some uid
      ∧ st.userprofile.find? (fun r => r.1 == uid) = some me
      ∧ out = pySlice ((((st.userprofile.filter (fun r => !(r.1 == uid))).map
          (fun c => Scored.mk c.1 c.2 (score me.2 c.2))).filter
            (fun e => decide (0 < e.score))).mergeSort
              (fun a b => decide (b.score ≤ a.score))) limit := by
  cases hp : parseId user_id with
  | none => simp only [recommendations, oid, hp] at h; cases h
  | some uid =>
    cases hf : st.userprofile.find? (fun r => r.1 == uid) with
    | none => simp only [recommendations, oid, hp, hf] at h; cases h
    | some me =>
      simp only [recommendations, oid, hp, hf, Except.ok.injEq] at h
      exact ⟨uid, me, rfl, hf, h.symm⟩

/-! ## C4: shape of the recommendation list -/

unseal List.merge List.mergeSort in
/-- C4 counterexample: with the supplied limit -1 (Python `int` query
parameters admit negative values, and `scored[:limit]` then drops elements
from the end), recommending for A over the three-user store returns a list
of length 1, which is not ≤ the requested limit -1 — refuting the claim for
"every supplied limit". -/
theorem recommendations_negative_limit_cex :
    (recommendations db3 "0" (-1)).1 = .ok [⟨1, userB, 8⟩]
      ∧ ¬ ((([(⟨1, userB, 8⟩ : Scored)] : List Scored).length : Int) ≤ -1) :=
  ⟨rfl, by decide⟩

/-- C4 (amended): every list a successful recommendations call returns
contains no entry with score ≤ 0, never contains the requester, and is
sorted by non-increasing score; its length is at most the requested limit
whenever the supplied limit is non-negative (a negative limit instead drops
elements from the end of the ranking, Python slice semantics). -/
theorem recommendations_output_properties (st : DB) (user_id : String) (limit : Int)
    (out : List Scored) (h : (recommendations st user_id limit).1 = .ok out) :
    (∀ e ∈ out, 0 < e.score)
      ∧ (∀ uid, parseId user_id = some uid → ∀ e ∈ out, e.id ≠ uid)
      ∧ (0 ≤ limit → (out.length : Int) ≤ limit)
      ∧ out.Pairwise (fun a b => b.score ≤ a.score) := by
  obtain ⟨uid, me, hp, hf, hout⟩ := recommendations_ok_shape h
  set scored := ((st.userprofile.filter (fun r => !(r.1 == uid))).map
      (fun c => Scored.mk c.1 c.2 (score me.2 c.2))).filter
        (fun e => decide (0 < e.score)) with hscored
  set sorted := scored.mergeSort (fun a b => decide (b.score ≤ a.score)) with hsorted
  have hsub : out.Sublist sorted := by
    rw [hout]
    unfold pySlice
    split
    · exact List.take_sublist _ _
    · exact List.take_sublist _ _
  have hmemscored : ∀ e ∈ out, e ∈ scored := by
    intro e he
    exact List.mem_mergeSort.mp (hsub.subset he)
  refine ⟨?_, ?_, ?_, ?_⟩
  · intro e he
    have := (List.mem_filter.mp (hmemscored e he)).2
    simpa using this
  · intro uid' hp' e he
    have huid : uid' = uid := by
      rw [hp] at hp'; exact (Option.some.injEq _ _ ▸ hp').symm
    rw [huid]
    have hmap := (List.mem_filter.mp (hmemscored e he)).1
    obtain ⟨c, hc, hce⟩ := List.mem_map.mp hmap
    have hcand := (List.mem_filter.mp hc).2
    have : c.1 ≠ uid := by simpa using hcand
    rw [← hce]
    simpa using this
  · intro hlim
    have : out.length ≤ limit.toNat := by
      rw [hout]
      unfold pySlice
      rw [if_neg (by omega)]
      rw [List.length_take]
      exact Nat.min_le_left _ _
    calc (out.length : Int) ≤ (limit.toNat : Int) := by exact_mod_cast this
      _ = limit := Int.toNat_of_nonneg hlim
  · have htrans : ∀ a b c : Scored, (fun a b : Scored => decide (b.score ≤ a.score)) a b = true →
        (fun a b : Scored => decide (b.score ≤ a.score)) b c = true →
        (fun a b : Scored => decide (b.score ≤ a.score)) a c = true := by
      intro a b c h1 h2
      simp only [decide_eq_true_eq] at *
      omega
    have htotal : ∀ a b : Scored, ((fun a b : Scored => decide (b.score ≤ a.score)) a b
        || (fun a b : Scored => decide (b.score ≤ a.score)) b a) = true := by
      intro a b
      simp only [Bool.or_eq_true, decide_eq_true_eq]
      omega
    have hpair := List.sorted_mergeSort htrans htotal scored
    have hpair' : sorted.Pairwise (fun a b => b.score ≤ a.score) := by
      refine hpair.imp ?_
      intro a b hab
      simpa using hab
    exact hpair'.sublist hsub

unseal List.merge List.mergeSort in
/-- C4 witness: the properties instantiated at the example store, requester
A and limit 20. -/
theorem recommendations_output_properties_witness :
    (∀ e ∈ [(⟨1, userB, 8⟩ : Scored)], 0 < e.score)
      ∧ (∀ uid, parseId "0" = some uid → ∀ e ∈ [(⟨1, userB, 8⟩ : Scored)], e.id ≠ uid)
      ∧ (0 ≤ (20 : Int) → (([(⟨1, userB, 8⟩ : Scored)].length : Int) ≤ 20))
      ∧ ([(⟨1, userB, 8⟩ : Scored)]).Pairwise (fun a b => b.score ≤ a.score) :=
  recommendations_output_properties dbAB "0" 20 [⟨1, userB, 8⟩] rfl

/-! ## C1: the scoring formula and the spec's example -/

unseal List.merge List.mergeSort in
/-- C1: the recommendation score is exactly 3 × |requester.teach ∩
candidate.learn| + 3 × |candidate.teach ∩ requester.learn| +
|(requester.teach ∪ requester.learn) ∩ (candidate.teach ∪
candidate.learn)| over lower-cased skill sets; every entry a successful
recommendations call returns carries exactly this score against the
resolved requester; and in the spec's example store B's score in A's
recommendations is 8. -/
theorem recommendation_score_formula :
    (∀ me c : Userprofile,
        score me c =
          3 * ((me.teach_skills.map strLower).toFinset
                ∩ (c.learn_skills.map strLower).toFinset).card
            + 3 * ((c.teach_skills.map strLower).toFinset
                ∩ (me.learn_skills.map strLower).toFinset).card
            + (((me.teach_skills.map strLower).toFinset ∪ (me.learn_skills.map strLower).toFinset)
                ∩ ((c.teach_skills.map strLower).toFinset
                    ∪ (c.learn_skills.map strLower).toFinset)).card)
      ∧ (∀ st user_id limit out, (recommendations st user_id limit).1 = .ok out →
          ∃ uid me, parseId user_id = some uid
            ∧ st.userprofile.find? (fun r => r.1 == uid) = some me
            ∧ ∀ e ∈ out, e.score = score me.2 e.user)
      ∧ (recommendations dbAB "0" 20).1 = .ok [⟨1, userB, 8⟩] := by
  refine ⟨?_, ?_, rfl⟩
  · intro me c
    simp only [score, lowerSet]
    ring
  · intro st user_id limit out h
    obtain ⟨uid, me, hp, hf, hout⟩ := recommendations_ok_shape h
    refine ⟨uid, me, hp, hf, ?_⟩
    intro e he
    have hsub : e ∈ ((st.userprofile.filter (fun r => !(r.1 == uid))).map
        (fun c => Scored.mk c.1 c.2 (score me.2 c.2))).filter
          (fun e => decide (0 < e.score)) := by
      rw [hout] at he
      have hmem : e ∈ (((st.userprofile.filter (fun r => !(r.1 == uid))).map
          (fun c => Scored.mk c.1 c.2 (score me.2 c.2))).filter
            (fun e => decide (0 < e.score))).mergeSort
              (fun a b => decide (b.score ≤ a.score)) := by
        revert he
        unfold pySlice
        split
        · exact fun he => (List.take_sublist _ _).subset he
        · exact fun he => (List.take_sublist _ _).subset he
      exact List.mem_mergeSort.mp hmem
    obtain ⟨c, _, hce⟩ := List.mem_map.mp (List.mem_filter.mp hsub).1
    rw [← hce]

unseal List.merge List.mergeSort in
/-- C1 witness: reading the score of B's entry off the example call gives
the claimed 8 = score of A against B. -/
theorem recommendation_score_formula_witness :
    ∃ uid me, parseId "0" = some uid
      ∧ dbAB.userprofile.find? (fun r => r.1 == uid) = some me
      ∧ ∀ e ∈ [(⟨1, userB, 8⟩ : Scored)], e.score = score me.2 e.user :=
  recommendation_score_formula.2.1 dbAB "0" 20 [⟨1, userB, 8⟩] rfl

/-! ## C3: completing a session -/

/-- A successful complete-session call in full: the session's status is set
to "completed", one ledger entry per participant is appended in order, and
each participant's first matching profile is credited (an absent profile is
a silent no-op, exactly as `update_one` behaves). -/
theorem complete_session_ok (st : DB) (session_id : String) (sid : Nat) (s : SessionDoc)
    (h g : Nat)
    (hsid : parseId session_id = some sid)
    (hs : st.session.find? (fun r => r.1 == sid) = some (sid, s))
    (hh : parseId s.host_id = some h)
    (hg : parseId s.guest_id = some g) :
    complete_session st session_id =
      (.ok ("completed", 10),
       { st with
         session := updateFirst st.session sid (fun d => { d with status := "completed" }),
         userprofile := updateFirst (updateFirst st.userprofile h
             (fun pr => { pr with skillcoins := pr.skillcoins + 10 })) g
             (fun pr => { pr with skillcoins := pr.skillcoins + 10 }),
         rewardtransaction := st.rewardtransaction
           ++ [(st.nextId, ⟨s.host_id, 10, "Completed session " ++ session_id⟩),
               (st.nextId + 1, ⟨s.guest_id, 10, "Completed session " ++ session_id⟩)],
         nextId := st.nextId + 2 }) := by
  simp [complete_session, oid, hsid, hs, rewardLoop, insertReward, hh, hg, Nat.add_assoc]

/-- C3: completing an existing session (whose host and guest ids decode and
resolve to two distinct profiles) returns status "completed" with
skillcoins_awarded 10, sets the session's status to "completed", appends
exactly one amount-10 ledger entry per participant whose reason text
contains the session identifier (it is "Completed session " followed by the
identifier), and credits both balances by 10; running the operation again
on the now-completed session performs all the effects a second time — two
more ledger entries and another +10 on each balance — so it is not
idempotent. -/
theorem complete_session_rewards_twice (st : DB) (session_id : String) (sid : Nat)
    (s : SessionDoc) (h g : Nat) (hu gu : Userprofile)
    (hsid : parseId session_id = some sid)
    (hs : st.session.find? (fun r => r.1 == sid) = some (sid, s))
    (hh : parseId s.host_id = some h)
    (hg : parseId s.guest_id = some g)
    (hne : h ≠ g)
    (hhu : st.userprofile.find? (fun r => r.1 == h) = some (h, hu))
    (hgu : st.userprofile.find? (fun r => r.1 == g) = some (g, gu)) :
    (complete_session st session_id).1 = .ok ("completed", 10)
      ∧ (complete_session st session_id).2.session.find? (fun r => r.1 == sid)
          = some (sid, { s with status := "completed" })
      ∧ (complete_session st session_id).2.rewardtransaction
          = st.rewardtransaction
            ++ [(st.nextId, ⟨s.host_id, 10, "Completed session " ++ session_id⟩),
                (st.nextId + 1, ⟨s.guest_id, 10, "Completed session " ++ session_id⟩)]
      ∧ (complete_session st session_id).2.userprofile.find? (fun r => r.1 == h)
          = some (h, { hu with skillcoins := hu.skillcoins + 10 })
      ∧ (complete_session st session_id).2.userprofile.find? (fun r => r.1 == g)
          = some (g, { gu with skillcoins := gu.skillcoins + 10 })
      ∧ (complete_session (complete_session st session_id).2 session_id).1
          = .ok ("completed", 10)
      ∧ (complete_session (complete_session st session_id).2 session_id).2.rewardtransaction
          = st.rewardtransaction
            ++ [(st.nextId, ⟨s.host_id, 10, "Completed session " ++ session_id⟩),
                (st.nextId + 1, ⟨s.guest_id, 10, "Completed session " ++ session_id⟩),
                (st.nextId + 2, ⟨s.host_id, 10, "Completed session " ++ session_id⟩),
                (st.nextId + 3, ⟨s.guest_id, 10, "Completed session " ++ session_id⟩)]
      ∧ (complete_session (complete_session st session_id).2 session_id).2.userprofile.find?
            (fun r => r.1 == h)
          = some (h, { hu with skillcoins := hu.skillcoins + 10 + 10 })
      ∧ (complete_session (complete_session st session_id).2 session_id).2.userprofile.find?
            (fun r => r.1 == g)
          = some (g, { gu with skillcoins := gu.skillcoins + 10 + 10 }) := by
  have e1 := complete_session_ok st session_id sid s h g hsid hs hh hg
  rw [e1]
  have hsess1 : (updateFirst st.session sid
      (fun d => { d with status := "completed" })).find? (fun r => r.1 == sid)
      = some (sid, { s with status := "completed" }) :=
    find?_updateFirst_self _ hs
  have hup1h : (updateFirst (updateFirst st.userprofile h
      (fun pr => { pr with skillcoins := pr.skillcoins + 10 })) g
      (fun pr => { pr with skillcoins := pr.skillcoins + 10 })).find? (fun r => r.1 == h)
      = some (h, { hu with skillcoins := hu.skillcoins + 10 }) := by
    rw [find?_updateFirst_ne _ hne]
    exact find?_updateFirst_self _ hhu
  have hup1g : (updateFirst (updateFirst st.userprofile h
      (fun pr => { pr with skillcoins := pr.skillcoins + 10 })) g
      (fun pr => { pr with skillcoins := pr.skillcoins + 10 })).find? (fun r => r.1 == g)
      = some (g, { gu with skillcoins := gu.skillcoins + 10 }) := by
    apply find?_updateFirst_self
    rw [find?_updateFirst_ne _ (Ne.symm hne)]
    exact hgu
  have e2 := complete_session_ok
    { st with
      session := updateFirst st.session sid (fun d => { d with status := "completed" }),
      userprofile := updateFirst (updateFirst st.userprofile h
          (fun pr => { pr with skillcoins := pr.skillcoins + 10 })) g
          (fun pr => { pr with skillcoins := pr.skillcoins + 10 }),
      rewardtransaction := st.rewardtransaction
        ++ [(st.nextId, ⟨s.host_id, 10, "Completed session " ++ session_id⟩),
            (st.nextId + 1, ⟨s.guest_id, 10, "Completed session " ++ session_id⟩)],
      nextId := st.nextId + 2 }
    session_id sid { s with status := "completed" } h g hsid hsess1 hh hg
  rw [e2]
  have hup2h : (updateFirst (updateFirst (updateFirst (updateFirst st.userprofile h
      (fun pr => { pr with skillcoins := pr.skillcoins + 10 })) g
      (fun pr => { pr with skillcoins := pr.skillcoins + 10 })) h
      (fun pr => { pr with skillcoins := pr.skillcoins + 10 })) g
      (fun pr => { pr with skillcoins := pr.skillcoins + 10 })).find? (fun r => r.1 == h)
      = some (h, { hu with skillcoins := hu.skillcoins + 10 + 10 }) := by
    rw [find?_updateFirst_ne _ hne]
    exact find?_updateFirst_self _ hup1h
  have hup2g : (updateFirst (updateFirst (updateFirst (updateFirst st.userprofile h
      (fun pr => { pr with skillcoins := pr.skillcoins + 10 })) g
      (fun pr => { pr with skillcoins := pr.skillcoins + 10 })) h
      (fun pr => { pr with skillcoins := pr.skillcoins + 10 })) g
      (fun pr => { pr with skillcoins := pr.skillcoins + 10 })).find? (fun r => r.1 == g)
      = some (g, { gu with skillcoins := gu.skillcoins + 10 + 10 }) := by
    have hstep : (updateFirst (updateFirst (updateFirst st.userprofile h
        (fun pr => { pr with skillcoins := pr.skillcoins + 10 })) g
        (fun pr => { pr with skillcoins := pr.skillcoins + 10 })) h
        (fun pr => { pr with skillcoins := pr.skillcoins + 10 })).find? (fun r => r.1 == g)
        = some (g, { gu with skillcoins := gu.skillcoins + 10 }) := by
      rw [find?_updateFirst_ne _ (Ne.symm hne)]
      exact hup1g
    exact find?_updateFirst_self _ hstep
  refine ⟨rfl, hsess1, rfl, hup1h, hup1g, rfl, ?_, hup2h, hup2g⟩
  simp [Nat.add_assoc]

/-- Concrete session store for the C3 witness: users 0 and 1 and a
scheduled session 3 hosting them. -/
def dbS : DB :=
  { userprofile := [(0, userA), (1, userB)],
    session := [(3, { match_id := "9", host_id := "0", guest_id := "1" })],
    nextId := 4 }

/-- C3 witness: completing session "3" of `dbS` twice — the instantiated
conclusions of the reward theorem. -/
theorem complete_session_rewards_twice_witness :
    (complete_session dbS "3").1 = .ok ("completed", 10)
      ∧ (complete_session dbS "3").2.session.find? (fun r => r.1 == 3)
          = some (3, { match_id := "9", host_id := "0", guest_id := "1", status := "completed" })
      ∧ (complete_session dbS "3").2.rewardtransaction
          = dbS.rewardtransaction
            ++ [(dbS.nextId, ⟨"0", 10, "Completed session " ++ "3"⟩),
                (dbS.nextId + 1, ⟨"1", 10, "Completed session " ++ "3"⟩)]
      ∧ (complete_session dbS "3").2.userprofile.find? (fun r => r.1 == 0)
          = some (0, { userA with skillcoins := userA.skillcoins + 10 })
      ∧ (complete_session dbS "3").2.userprofile.find? (fun r => r.1 == 1)
          = some (1, { userB with skillcoins := userB.skillcoins + 10 })
      ∧ (complete_session (complete_session dbS "3").2 "3").1 = .ok ("completed", 10)
      ∧ (complete_session (complete_session dbS "3").2 "3").2.rewardtransaction
          = dbS.rewardtransaction
            ++ [(dbS.nextId, ⟨"0", 10, "Completed session " ++ "3"⟩),
                (dbS.nextId + 1, ⟨"1", 10, "Completed session " ++ "3"⟩),
                (dbS.nextId + 2, ⟨"0", 10, "Completed session " ++ "3"⟩),
                (dbS.nextId + 3, ⟨"1", 10, "Completed session " ++ "3"⟩)]
      ∧ (complete_session (complete_session dbS "3").2 "3").2.userprofile.find?
            (fun r => r.1 == 0)
          = some (0, { userA with skillcoins := userA.skillcoins + 10 + 10 })
      ∧ (complete_session (complete_session dbS "3").2 "3").2.userprofile.find?
            (fun r => r.1 == 1)
          = some (1, { userB with skillcoins := userB.skillcoins + 10 + 10 }) :=
  complete_session_rewards_twice dbS "3" 3
    { match_id := "9", host_id := "0", guest_id := "1" } 0 1 userA userB
    rfl rfl rfl rfl (by decide) rfl rfl

/-! ## C2: mutual likes and match de-duplication -/

theorem find?_ne_none_of_mem {α : Type} {p : α → Bool} {l : List α} {x : α}
    (hx : x ∈ l) (hpx : p x = true) : l.find? p ≠ none := by
  intro hn
  rw [List.find?_eq_none] at hn
  exact hn x hx hpx

/-- The unordered-pair filter is symmetric in the two users. -/
theorem pairMatches_comm (st : DB) (a b : String) : pairMatches st b a = pairMatches st a b := by
  unfold pairMatches
  apply List.filter_congr
  intro x _
  exact Bool.or_comm _ _

/-- No record for the pair means the either-ordering existence query in
`swipe` comes back empty. -/
theorem find?_pair_none {st : DB} {a b : String} (hm : pairMatches st a b = []) :
    st.matchColl.find? (fun r =>
      (r.2.user_a == a && r.2.user_b == b) || (r.2.user_a == b && r.2.user_b == a)) = none := by
  rw [List.find?_eq_none]
  intro x hx
  exact List.filter_eq_nil_iff.mp hm x hx

/-- A "like" with no reverse-direction like on file (after the insert) only
records the swipe. -/
theorem swipe_like_recorded (st : DB) (a b : String)
    (hmut : (st.swipe ++ [(st.nextId, (⟨a, b, "like"⟩ : SwipeDoc))]).find?
        (fun r => r.2.user_id == b && r.2.target_id == a && r.2.action == "like") = none) :
    swipe st ⟨a, b, "like"⟩ = (.ok .recorded,
      { st with swipe := st.swipe ++ [(st.nextId, ⟨a, b, "like"⟩)],
                nextId := st.nextId + 1 }) := by
  simp [swipe, insertSwipe, hmut]

/-- A mutual "like" that finds an existing record for the unordered pair
returns that record's identifier and creates nothing. -/
theorem swipe_like_matched_existing (st : DB) (a b : String) (mid : Nat) (d : MatchDoc)
    (hmut : (st.swipe ++ [(st.nextId, (⟨a, b, "like"⟩ : SwipeDoc))]).find?
        (fun r => r.2.user_id == b && r.2.target_id == a && r.2.action == "like") ≠ none)
    (hfm : st.matchColl.find? (fun r =>
        (r.2.user_a == a && r.2.user_b == b) || (r.2.user_a == b && r.2.user_b == a))
      = some (mid, d)) :
    swipe st ⟨a, b, "like"⟩ = (.ok (.matched (toString mid)),
      { st with swipe := st.swipe ++ [(st.nextId, ⟨a, b, "like"⟩)],
                nextId := st.nextId + 1 }) := by
  obtain ⟨w, hw⟩ := Option.ne_none_iff_exists'.mp hmut
  simp [swipe, insertSwipe, hw, hfm]

/-- A mutual "like" with no record for the unordered pair creates the match
with status "active" and returns the fresh identifier. -/
theorem swipe_like_matched_new (st : DB) (a b : String)
    (hmut : (st.swipe ++ [(st.nextId, (⟨a, b, "like"⟩ : SwipeDoc))]).find?
        (fun r => r.2.user_id == b && r.2.target_id == a && r.2.action == "like") ≠ none)
    (hfm : st.matchColl.find? (fun r =>
        (r.2.user_a == a && r.2.user_b == b) || (r.2.user_a == b && r.2.user_b == a)) = none) :
    swipe st ⟨a, b, "like"⟩ = (.ok (.matched (toString (st.nextId + 1))),
      { st with swipe := st.swipe ++ [(st.nextId, ⟨a, b, "like"⟩)],
                matchColl := st.matchColl ++ [(st.nextId + 1, ⟨a, b, "active"⟩)],
                nextId := st.nextId + 2 }) := by
  obtain ⟨w, hw⟩ := Option.ne_none_iff_exists'.mp hmut
  simp [swipe, insertSwipe, insertMatch, hw, hfm, Nat.add_assoc]

/-- C2: if distinct users a and b (with no match yet recorded for the pair)
each like the other, then after the second swipe exactly one match record
exists for the unordered pair, it has status "active", the second swipe
returned "matched" with that record's identifier, and any further like in
either direction returns the same identifier and leaves the match
collection unchanged. -/
theorem mutual_like_single_active_match (st : DB) (a b : String) (hab : a ≠ b)
    (hm : pairMatches st a b = []) :
    ∃ r1 st1 st2 mid d,
      swipe st ⟨a, b, "like"⟩ = (r1, st1)
      ∧ swipe st1 ⟨b, a, "like"⟩ = (.ok (.matched (toString mid)), st2)
      ∧ pairMatches st2 a b = [(mid, d)]
      ∧ d.status = "active"
      ∧ (swipe st2 ⟨a, b, "like"⟩).1 = .ok (.matched (toString mid))
      ∧ (swipe st2 ⟨a, b, "like"⟩).2.matchColl = st2.matchColl
      ∧ (swipe st2 ⟨b, a, "like"⟩).1 = .ok (.matched (toString mid))
      ∧ (swipe st2 ⟨b, a, "like"⟩).2.matchColl = st2.matchColl := by
  have hab' : (a == b) = false := beq_eq_false_iff_ne.mpr hab
  have hba : (b == a) = false := beq_eq_false_iff_ne.mpr (Ne.symm hab)
  have hm' : st.matchColl.filter (fun r =>
      (r.2.user_a == a && r.2.user_b == b) || (r.2.user_a == b && r.2.user_b == a)) = [] := hm
  have hmAB : st.matchColl.find? (fun r =>
      (r.2.user_a == a && r.2.user_b == b) || (r.2.user_a == b && r.2.user_b == a)) = none :=
    find?_pair_none hm
  have hmBA : st.matchColl.find? (fun r =>
      (r.2.user_a == b && r.2.user_b == a) || (r.2.user_a == a && r.2.user_b == b)) = none :=
    find?_pair_none (by rw [pairMatches_comm]; exact hm)
  cases hpre : st.swipe.find? (fun r =>
      r.2.user_id == b && r.2.target_id == a && r.2.action == "like") with
  | none =>
    -- first like is not yet mutual: it is only recorded
    have hmut1 : (st.swipe ++ [(st.nextId, (⟨a, b, "like"⟩ : SwipeDoc))]).find?
        (fun r => r.2.user_id == b && r.2.target_id == a && r.2.action == "like") = none := by
      rw [List.find?_append, hpre, Option.none_or]
      simp [hab']
    have e1 := swipe_like_recorded st a b hmut1
    have hmut2 : (((st.swipe ++ [(st.nextId, (⟨a, b, "like"⟩ : SwipeDoc))]))
          ++ [(st.nextId + 1, (⟨b, a, "like"⟩ : SwipeDoc))]).find?
        (fun r => r.2.user_id == a && r.2.target_id == b && r.2.action == "like") ≠ none :=
      find?_ne_none_of_mem
        (show (st.nextId, (⟨a, b, "like"⟩ : SwipeDoc)) ∈ _ by simp) (by simp)
    have e2 := swipe_like_matched_new
      { st with swipe := st.swipe ++ [(st.nextId, ⟨a, b, "like"⟩)], nextId := st.nextId + 1 }
      b a hmut2 hmBA
    refine ⟨.ok .recorded,
      { st with swipe := st.swipe ++ [(st.nextId, ⟨a, b, "like"⟩)], nextId := st.nextId + 1 },
      { st with
        swipe := (st.swipe ++ [(st.nextId, ⟨a, b, "like"⟩)]) ++ [(st.nextId + 1, ⟨b, a, "like"⟩)],
        matchColl := st.matchColl ++ [(st.nextId + 1 + 1, ⟨b, a, "active"⟩)],
        nextId := st.nextId + 1 + 2 },
      st.nextId + 1 + 1, ⟨b, a, "active"⟩, e1, e2, ?_, rfl, ?_, ?_, ?_, ?_⟩
    · simp only [pairMatches, List.filter_append, hm', List.nil_append]
      simp [hba, hab']
    · have hmut3 : (((st.swipe ++ [(st.nextId, (⟨a, b, "like"⟩ : SwipeDoc))])
            ++ [(st.nextId + 1, (⟨b, a, "like"⟩ : SwipeDoc))])
            ++ [(st.nextId + 1 + 2, (⟨a, b, "like"⟩ : SwipeDoc))]).find?
          (fun r => r.2.user_id == b && r.2.target_id == a && r.2.action == "like") ≠ none :=
        find?_ne_none_of_mem
          (show (st.nextId + 1, (⟨b, a, "like"⟩ : SwipeDoc)) ∈ _ by simp) (by simp)
      have hfm3 : (st.matchColl ++ [(st.nextId + 1 + 1, (⟨b, a, "active"⟩ : MatchDoc))]).find?
          (fun r => (r.2.user_a == a && r.2.user_b == b) || (r.2.user_a == b && r.2.user_b == a))
          = some (st.nextId + 1 + 1, ⟨b, a, "active"⟩) := by
        rw [find?_append_right hmAB]
        simp [hba, hab']
      rw [swipe_like_matched_existing _ a b _ _ hmut3 hfm3]
    · have hmut3 : (((st.swipe ++ [(st.nextId, (⟨a, b, "like"⟩ : SwipeDoc))])
            ++ [(st.nextId + 1, (⟨b, a, "like"⟩ : SwipeDoc))])
            ++ [(st.nextId + 1 + 2, (⟨a, b, "like"⟩ : SwipeDoc))]).find?
          (fun r => r.2.user_id == b && r.2.target_id == a && r.2.action == "like") ≠ none :=
        find?_ne_none_of_mem
          (show (st.nextId + 1, (⟨b, a, "like"⟩ : SwipeDoc)) ∈ _ by simp) (by simp)
      have hfm3 : (st.matchColl ++ [(st.nextId + 1 + 1, (⟨b, a, "active"⟩ : MatchDoc))]).find?
          (fun r => (r.2.user_a == a && r.2.user_b == b) || (r.2.user_a == b && r.2.user_b == a))
          = some (st.nextId + 1 + 1, ⟨b, a, "active"⟩) := by
        rw [find?_append_right hmAB]
        simp [hba, hab']
      rw [swipe_like_matched_existing _ a b _ _ hmut3 hfm3]
    · have hmut4 : (((st.swipe ++ [(st.nextId, (⟨a, b, "like"⟩ : SwipeDoc))])
            ++ [(st.nextId + 1, (⟨b, a, "like"⟩ : SwipeDoc))])
            ++ [(st.nextId + 1 + 2, (⟨b, a, "like"⟩ : SwipeDoc))]).find?
          (fun r => r.2.user_id == a && r.2.target_id == b && r.2.action == "like") ≠ none :=
        find?_ne_none_of_mem
          (show (st.nextId, (⟨a, b, "like"⟩ : SwipeDoc)) ∈ _ by simp) (by simp)
      have hfm4 : (st.matchColl ++ [(st.nextId + 1 + 1, (⟨b, a, "active"⟩ : MatchDoc))]).find?
          (fun r => (r.2.user_a == b && r.2.user_b == a) || (r.2.user_a == a && r.2.user_b == b))
          = some (st.nextId + 1 + 1, ⟨b, a, "active"⟩) := by
        rw [find?_append_right hmBA]
        simp
      rw [swipe_like_matched_existing _ b a _ _ hmut4 hfm4]
    · have hmut4 : (((st.swipe ++ [(st.nextId, (⟨a, b, "like"⟩ : SwipeDoc))])
            ++ [(st.nextId + 1, (⟨b, a, "like"⟩ : SwipeDoc))])
            ++ [(st.nextId + 1 + 2, (⟨b, a, "like"⟩ : SwipeDoc))]).find?
          (fun r => r.2.user_id == a && r.2.target_id == b && r.2.action == "like") ≠ none :=
        find?_ne_none_of_mem
          (show (st.nextId, (⟨a, b, "like"⟩ : SwipeDoc)) ∈ _ by simp) (by simp)
      have hfm4 : (st.matchColl ++ [(st.nextId + 1 + 1, (⟨b, a, "active"⟩ : MatchDoc))]).find?
          (fun r => (r.2.user_a == b && r.2.user_b == a) || (r.2.user_a == a && r.2.user_b == b))
          = some (st.nextId + 1 + 1, ⟨b, a, "active"⟩) := by
        rw [find?_append_right hmBA]
        simp
      rw [swipe_like_matched_existing _ b a _ _ hmut4 hfm4]
  | some w0 =>
    -- the reverse like already exists: the first swipe itself matches
    have hmut1 : (st.swipe ++ [(st.nextId, (⟨a, b, "like"⟩ : SwipeDoc))]).find?
        (fun r => r.2.user_id == b && r.2.target_id == a && r.2.action == "like") ≠ none := by
      rw [List.find?_append, hpre]
      simp
    have e1 := swipe_like_matched_new st a b hmut1 hmAB
    have hmut2 : ((st.swipe ++ [(st.nextId, (⟨a, b, "like"⟩ : SwipeDoc))])
          ++ [(st.nextId + 2, (⟨b, a, "like"⟩ : SwipeDoc))]).find?
        (fun r => r.2.user_id == a && r.2.target_id == b && r.2.action == "like") ≠ none :=
      find?_ne_none_of_mem
        (show (st.nextId, (⟨a, b, "like"⟩ : SwipeDoc)) ∈ _ by simp) (by simp)
    have hfm2 : (st.matchColl ++ [(st.nextId + 1, (⟨a, b, "active"⟩ : MatchDoc))]).find?
        (fun r => (r.2.user_a == b && r.2.user_b == a) || (r.2.user_a == a && r.2.user_b == b))
        = some (st.nextId + 1, ⟨a, b, "active"⟩) := by
      rw [find?_append_right hmBA]
      simp
    have e2 := swipe_like_matched_existing
      { st with swipe := st.swipe ++ [(st.nextId, ⟨a, b, "like"⟩)],
                matchColl := st.matchColl ++ [(st.nextId + 1, ⟨a, b, "active"⟩)],
                nextId := st.nextId + 2 }
      b a (st.nextId + 1) ⟨a, b, "active"⟩ hmut2 hfm2
    refine ⟨.ok (.matched (toString (st.nextId + 1))),
      { st with swipe := st.swipe ++ [(st.nextId, ⟨a, b, "like"⟩)],
                matchColl := st.matchColl ++ [(st.nextId + 1, ⟨a, b, "active"⟩)],
                nextId := st.nextId + 2 },
      { st with
        swipe := (st.swipe ++ [(st.nextId, ⟨a, b, "like"⟩)]) ++ [(st.nextId + 2, ⟨b, a, "like"⟩)],
        matchColl := st.matchColl ++ [(st.nextId + 1, ⟨a, b, "active"⟩)],
        nextId := st.nextId + 2 + 1 },
      st.nextId + 1, ⟨a, b, "active"⟩, e1, e2, ?_, rfl, ?_, ?_, ?_, ?_⟩
    · simp only [pairMatches, List.filter_append, hm', List.nil_append]
      simp
    · have hmut3 : (((st.swipe ++ [(st.nextId, (⟨a, b, "like"⟩ : SwipeDoc))])
            ++ [(st.nextId + 2, (⟨b, a, "like"⟩ : SwipeDoc))])
            ++ [(st.nextId + 2 + 1, (⟨a, b, "like"⟩ : SwipeDoc))]).find?
          (fun r => r.2.user_id == b && r.2.target_id == a && r.2.action == "like") ≠ none :=
        find?_ne_none_of_mem
          (show (st.nextId + 2, (⟨b, a, "like"⟩ : SwipeDoc)) ∈ _ by simp) (by simp)
      have hfm3 : (st.matchColl ++ [(st.nextId + 1, (⟨a, b, "active"⟩ : MatchDoc))]).find?
          (fun r => (r.2.user_a == a && r.2.user_b == b) || (r.2.user_a == b && r.2.user_b == a))
          = some (st.nextId + 1, ⟨a, b, "active"⟩) := by
        rw [find?_append_right hmAB]
        simp
      rw [swipe_like_matched_existing _ a b _ _ hmut3 hfm3]
    · have hmut3 : (((st.swipe ++ [(st.nextId, (⟨a, b, "like"⟩ : SwipeDoc))])
            ++ [(st.nextId + 2, (⟨b, a, "like"⟩ : SwipeDoc))])
            ++ [(st.nextId + 2 + 1, (⟨a, b, "like"⟩ : SwipeDoc))]).find?
          (fun r => r.2.user_id == b && r.2.target_id == a && r.2.action == "like") ≠ none :=
        find?_ne_none_of_mem
          (show (st.nextId + 2, (⟨b, a, "like"⟩ : SwipeDoc)) ∈ _ by simp) (by simp)
      have hfm3 : (st.matchColl ++ [(st.nextId + 1, (⟨a, b, "active"⟩ : MatchDoc))]).find?
          (fun r => (r.2.user_a == a && r.2.user_b == b) || (r.2.user_a == b && r.2.user_b == a))
          = some (st.nextId + 1, ⟨a, b, "active"⟩) := by
        rw [find?_append_right hmAB]
        simp
      rw [swipe_like_matched_existing _ a b _ _ hmut3 hfm3]
    · have hmut4 : (((st.swipe ++ [(st.nextId, (⟨a, b, "like"⟩ : SwipeDoc))])
            ++ [(st.nextId + 2, (⟨b, a, "like"⟩ : SwipeDoc))])
            ++ [(st.nextId + 2 + 1, (⟨b, a, "like"⟩ : SwipeDoc))]).find?
          (fun r => r.2.user_id == a && r.2.target_id == b && r.2.action == "like") ≠ none :=
        find?_ne_none_of_mem
          (show (st.nextId, (⟨a, b, "like"⟩ : SwipeDoc)) ∈ _ by simp) (by simp)
      have hfm4 : (st.matchColl ++ [(st.nextId + 1, (⟨a, b, "active"⟩ : MatchDoc))]).find?
          (fun r => (r.2.user_a == b && r.2.user_b == a) || (r.2.user_a == a && r.2.user_b == b))
          = some (st.nextId + 1, ⟨a, b, "active"⟩) := by
        rw [find?_append_right hmBA]
        simp
      rw [swipe_like_matched_existing _ b a _ _ hmut4 hfm4]
    · have hmut4 : (((st.swipe ++ [(st.nextId, (⟨a, b, "like"⟩ : SwipeDoc))])
            ++ [(st.nextId + 2, (⟨b, a, "like"⟩ : SwipeDoc))])
            ++ [(st.nextId + 2 + 1, (⟨b, a, "like"⟩ : SwipeDoc))]).find?
          (fun r => r.2.user_id == a && r.2.target_id == b && r.2.action == "like") ≠ none :=
        find?_ne_none_of_mem
          (show (st.nextId, (⟨a, b, "like"⟩ : SwipeDoc)) ∈ _ by simp) (by simp)
      have hfm4 : (st.matchColl ++ [(st.nextId + 1, (⟨a, b, "active"⟩ : MatchDoc))]).find?
          (fun r => (r.2.user_a == b && r.2.user_b == a) || (r.2.user_a == a && r.2.user_b == b))
          = some (st.nextId + 1, ⟨a, b, "active"⟩) := by
        rw [find?_append_right hmBA]
        simp
      rw [swipe_like_matched_existing _ b a _ _ hmut4 hfm4]

/-- C2 witness: users "1" and "2" on the empty store. -/
theorem mutual_like_single_active_match_witness :
    ∃ r1 st1 st2 mid d,
      swipe emptyDB ⟨"1", "2", "like"⟩ = (r1, st1)
      ∧ swipe st1 ⟨"2", "1", "like"⟩ = (.ok (.matched (toString mid)), st2)
      ∧ pairMatches st2 "1" "2" = [(mid, d)]
      ∧ d.status = "active"
      ∧ (swipe st2 ⟨"1", "2", "like"⟩).1 = .ok (.matched (toString mid))
      ∧ (swipe st2 ⟨"1", "2", "like"⟩).2.matchColl = st2.matchColl
      ∧ (swipe st2 ⟨"2", "1", "like"⟩).1 = .ok (.matched (toString mid))
      ∧ (swipe st2 ⟨"2", "1", "like"⟩).2.matchColl = st2.matchColl :=
  mutual_like_single_active_match emptyDB "1" "2" (by decide) rfl
